import Mathlib

/-!
Verification development for the SeaTrace coastal-hazard dashboard.

The definitions below are a shallow embedding of the temporal-spatial hazard
compositing engine: the hazard record model and activity filter of
frontend/src/components/MapView.tsx, the duration table of
frontend/src/lib/mockData.ts, the region helpers of lib/locationData, and the
timeline transport of lib/useTimelineState plus the TimelineControl component.
Timestamps and durations are epoch-millisecond / hour integers (the JS values
involved are exact integers); coordinates, visual weights and the slider
percentage are rationals.
-/

namespace SeaTrace

/-- Hazard kind enum, from the HazardReport interface in mockData.ts. -/
inductive HazardType where
  | tsunami
  | storm_surge
  | high_tide
  | erosion
  | rip_current
  | cyclone
  | coastal_flood
deriving DecidableEq

/-- Severity enum, from the HazardReport interface in mockData.ts. -/
inductive Severity where
  | low
  | medium
  | high
  | critical
deriving DecidableEq

/-- Report source enum, from the HazardReport interface in mockData.ts. -/
inductive Source where
  | agency
  | social
  | news
deriving DecidableEq

/-- Verification status enum, from the HazardReport interface in mockData.ts. -/
inductive VerificationStatus where
  | verified
  | unverified
  | ambiguous
  | false_alert
deriving DecidableEq

/-- One hazard observation or prediction, mirroring the HazardReport interface
of mockData.ts field by field. Optional TS fields become Option; the
timestamp ISO string is modelled as its epoch-millisecond value. -/
structure HazardReport where
  id : String
  type : HazardType
  severity : Severity
  title : String
  description : String
  lat : ℚ
  lng : ℚ
  reporter : String
  timestamp : ℤ
  verified : Bool
  upvotes : ℤ
  imageUrl : Option String
  isPrediction : Bool
  state : Option String
  source : Option Source
  verificationStatus : Option VerificationStatus
  durationHours : Option ℤ
deriving DecidableEq

/-- Per-hazard-kind default active durations in hours, from the
HAZARD_DURATION_HOURS table of mockData.ts. In the source this table is read
when the seed records are generated, not inside the map activity filter. -/
def HAZARD_DURATION_HOURS : HazardType → ℤ
  | HazardType.rip_current => 6
  | HazardType.high_tide => 12
  | HazardType.storm_surge => 48
  | HazardType.tsunami => 24
  | HazardType.coastal_flood => 72
  | HazardType.cyclone => 120
  | HazardType.erosion => 336

/-- JavaScript truthiness fallback for a possibly-absent number, modelling
the expression `x || fallback`: an absent value and the number 0 are both
replaced by the fallback. -/
def orFallback (x : Option ℤ) (fallback : ℤ) : ℤ :=
  match x with
  | none => fallback
  | some v => if v = 0 then fallback else v

/-- Time-activity test of the MapView filter (MapView.tsx lines 153-162),
restricted to its two temporal conditions: reject when the report time is
after the reference time, and reject when the reference time is after the
expiry time `reportTime + (durationHours || 48) hours`. -/
def isActive (selectedTimestamp : ℤ) (r : HazardReport) : Bool :=
  if r.timestamp > selectedTimestamp then false
  else
    let durationMs := orFallback r.durationHours 48 * 60 * 60 * 1000
    let expiryTime := r.timestamp + durationMs
    if selectedTimestamp > expiryTime then false
    else true

/-- The full record filter of the MapView rendering effect (MapView.tsx lines
153-163): the two temporal conditions of isActive with the visible-kind
membership test between them, in source order. -/
def passesFilter (visibleTypes : List HazardType) (selectedTimestamp : ℤ)
    (r : HazardReport) : Bool :=
  if r.timestamp > selectedTimestamp then false
  else if !(visibleTypes.contains r.type) then false
  else
    let durationMs := orFallback r.durationHours 48 * 60 * 60 * 1000
    let expiryTime := r.timestamp + durationMs
    if selectedTimestamp > expiryTime then false
    else true

/-- Agency bucket predicate (MapView.tsx line 166):
source is agency and the record is not a prediction. -/
def inAgencyBucket (r : HazardReport) : Bool :=
  decide (r.source = some Source.agency) && !r.isPrediction

/-- Prediction bucket predicate (MapView.tsx line 167): isPrediction. -/
def inPredictionBucket (r : HazardReport) : Bool :=
  r.isPrediction

/-- Verified-secondary bucket predicate (MapView.tsx lines 168-169):
news or social source with verified status. -/
def inVerifiedSecondary (r : HazardReport) : Bool :=
  (decide (r.source = some Source.news) || decide (r.source = some Source.social)) &&
    decide (r.verificationStatus = some VerificationStatus.verified)

/-- Ambiguous-secondary bucket predicate (MapView.tsx lines 170-171):
news or social source with ambiguous status. -/
def inAmbiguousSecondary (r : HazardReport) : Bool :=
  (decide (r.source = some Source.news) || decide (r.source = some Source.social)) &&
    decide (r.verificationStatus = some VerificationStatus.ambiguous)

/-- Inputs of one compositing pass: exactly the values the MapView rendering
effect reads (its dependency list plus the module-level record set). The
selected region is not among them - the effect never reads it. -/
structure RenderInputs where
  showHeatmap : Bool
  selectedTimestamp : ℤ
  visibleTypes : List HazardType
  reports : List HazardReport
deriving DecidableEq

/-- The four visual layers produced by one compositing pass, each recorded as
the list of reports it contains. In the source the two heat layers are
additionally grouped by hazard kind before rendering; since the
disasterColors table of mockData.ts has an entry for every one of the seven
kinds, that grouping drops no record, so record membership is as here. -/
structure Layers where
  verifiedHeat : List HazardReport
  ambiguousHeat : List HazardReport
  agencyMarkers : List HazardReport
  predictionMarkers : List HazardReport
deriving DecidableEq

/-- The empty layer set: the state right after the rendering effect has
removed every previously drawn layer (MapView.tsx lines 143-148). -/
def emptyLayers : Layers :=
  { verifiedHeat := []
    ambiguousHeat := []
    agencyMarkers := []
    predictionMarkers := [] }

/-- Layer construction from the filtered record set (MapView.tsx lines
153-346): filter, then split into the four buckets. -/
def buildLayers (inp : RenderInputs) : Layers :=
  let filtered := inp.reports.filter (passesFilter inp.visibleTypes inp.selectedTimestamp)
  { verifiedHeat := filtered.filter inVerifiedSecondary
    ambiguousHeat := filtered.filter inAmbiguousSecondary
    agencyMarkers := filtered.filter inAgencyBucket
    predictionMarkers := filtered.filter inPredictionBucket }

/-- The layer set produced by one compositing pass as a function of its
inputs: empty when the heatmap toggle is off (the effect returns right after
clearing), otherwise the four buckets built from the filtered records. -/
def compose (inp : RenderInputs) : Layers :=
  if inp.showHeatmap then buildLayers inp else emptyLayers

/-- Clearing step of the rendering effect (MapView.tsx lines 143-148): every
previously drawn layer is removed, whatever it was. -/
def clearLayers (_prev : Layers) : Layers :=
  emptyLayers

/-- One full run of the MapView rendering effect as a state transformer on the
drawn layer set: clear the previous layers, then stop if the heatmap toggle is
off, else build the new layers from the current inputs. -/
def renderPass (prev : Layers) (inp : RenderInputs) : Layers :=
  let cleared := clearLayers prev
  if !inp.showHeatmap then cleared else buildLayers inp

/-- Heat intensity of a verified-secondary record: the ternary chain of
MapView.tsx lines 188-191 (critical 1.0, high 0.8, medium 0.55, else 0.35). -/
def verifiedHeatIntensity : Severity → ℚ
  | Severity.critical => 1.0
  | Severity.high => 0.8
  | Severity.medium => 0.55
  | Severity.low => 0.35

/-- Heat intensity of an ambiguous-secondary record: the ternary chain of
MapView.tsx lines 227-230 (critical 0.5, high 0.35, medium 0.2, else 0.1). -/
def ambiguousHeatIntensity : Severity → ℚ
  | Severity.critical => 0.5
  | Severity.high => 0.35
  | Severity.medium => 0.2
  | Severity.low => 0.1

/-- Marker radius used for agency circles: the ternary chain of MapView.tsx
lines 260-263 (critical 10, high 8, medium 6, else 5). -/
def agencyMarkerRadius : Severity → ℚ
  | Severity.critical => 10
  | Severity.high => 8
  | Severity.medium => 6
  | Severity.low => 5

/-- Marker radius used for prediction circles: the ternary chain of
MapView.tsx lines 314-317 (critical 10, high 8, medium 6, else 5). -/
def predictionMarkerRadius : Severity → ℚ
  | Severity.critical => 10
  | Severity.high => 8
  | Severity.medium => 6
  | Severity.low => 5

/-- Numeric rank of the ordered severity enum (low < medium < high < critical). -/
def sevRank : Severity → ℕ
  | Severity.low => 0
  | Severity.medium => 1
  | Severity.high => 2
  | Severity.critical => 3

/-- Initial visible-kind set of MapView (MapView.tsx lines 47-49): all seven
hazard kinds, in source order. -/
def initialVisibleTypes : List HazardType :=
  [HazardType.tsunami, HazardType.cyclone, HazardType.storm_surge,
   HazardType.high_tide, HazardType.erosion, HazardType.rip_current,
   HazardType.coastal_flood]

/-- The visible-kind toggle handler (MapView.tsx lines 350-357): delete the
kind when present, insert it when absent. The JS Set is modelled as a list;
deletion removes every occurrence, matching set semantics. -/
def handleToggleType (visible : List HazardType) (k : HazardType) : List HazardType :=
  if visible.contains k then visible.filter (fun x => decide (x ≠ k))
  else k :: visible

/-- A named bounding box in degrees, from the RegionEntry interface of
lib/locationData: [south, west, north, east]. -/
structure Bbox where
  south : ℚ
  west : ℚ
  north : ℚ
  east : ℚ
deriving DecidableEq

/-- Point-in-bounding-box test with margin, from isPointInBbox of
lib/locationData (the JS default for the margin parameter is 0.5). -/
def isPointInBbox (lat lng : ℚ) (bbox : Bbox) (margin : ℚ) : Bool :=
  decide (lat ≥ bbox.south - margin) && decide (lat ≤ bbox.north + margin) &&
    decide (lng ≥ bbox.west - margin) && decide (lng ≤ bbox.east + margin)

/-- The Mumbai region bounding box from the INDIAN_COASTAL_REGIONS table of
lib/locationData. -/
def mumbaiBbox : Bbox :=
  { south := 18.85, west := 72.75, north := 19.28, east := 73.05 }

/-- Timeline store state, from the TimelineState interface of
lib/useTimelineState. -/
structure TimelineState where
  selectedTimestamp : ℤ
  isPlaying : Bool
  playbackSpeed : ℤ
deriving DecidableEq

/-- The fixed "now" of the timeline, 2026-02-13T00:00:00Z in epoch
milliseconds (getTimelineRange in lib/useTimelineState). -/
def timelineNow : ℤ := 1770940800000

/-- Start of the configured timeline range: 7 days before now. -/
def timelineStart : ℤ := timelineNow - 7 * 86400000

/-- End of the configured timeline range: 3 days after now. -/
def timelineEnd : ℤ := timelineNow + 3 * 86400000

/-- The store's setSelectedTimestamp action (lib/useTimelineState lines
15-17): stores the given timestamp as-is, touching nothing else. -/
def setSelectedTimestamp (s : TimelineState) (t : ℤ) : TimelineState :=
  { s with selectedTimestamp := t }

/-- One playback interval firing (TimelineControl playback effect, lines
149-160): only acts while playing; advances the selected timestamp by one
hour (3600000 ms); when the advanced value is past the range end, stores
exactly the range end and stops playing. -/
def playbackTick (s : TimelineState) : TimelineState :=
  if s.isPlaying then
    let next := s.selectedTimestamp + 3600000
    if next > timelineEnd then
      { s with selectedTimestamp := timelineEnd, isPlaying := false }
    else
      { s with selectedTimestamp := next }
  else s

/-- Slider percentage computed by the drag handler (TimelineControl
handleMouseMove, lines 128-135): clamped to [0, 100]. -/
def dragScrubPercentage (x width : ℚ) : ℚ :=
  max 0 (min 100 (x / width * 100))

/-- Timestamp a drag scrub sets, from the clamped percentage
(TimelineControl handleMouseMove, lines 128-135). -/
def dragScrubTarget (x width : ℚ) : ℚ :=
  (timelineStart : ℚ) + ((timelineEnd : ℚ) - (timelineStart : ℚ)) * dragScrubPercentage x width / 100

/-- A concrete well-formed agency record in the shape of the seeded data
(cyclone, agency source, verified, 120 h duration), used as the base of the
test fixtures below. -/
def baseReport : HazardReport :=
  { id := "r0", type := HazardType.cyclone, severity := Severity.high,
    title := "t", description := "d", lat := 20, lng := 85, reporter := "rep",
    timestamp := 0, verified := true, upvotes := 0, imageUrl := none,
    isPrediction := false, state := none, source := some Source.agency,
    verificationStatus := some VerificationStatus.verified,
    durationHours := some 120 }

/-- Fixture: a record with an explicit 48 h duration, observed exactly at its
expiry instant. -/
def recordAtExpiryBoundary : HazardReport :=
  { baseReport with
    type := HazardType.storm_surge
    severity := Severity.medium
    durationHours := some 48 }

/-- Fixture: a rip_current record whose durationHours is absent. -/
def recordMissingDuration : HazardReport :=
  { baseReport with type := HazardType.rip_current, durationHours := none }

/-- Fixture: an agency-sourced non-prediction record marked false_alert. -/
def recordFalseAlertAgency : HazardReport :=
  { baseReport with verificationStatus := some VerificationStatus.false_alert }

/-- Fixture: a news-sourced prediction with verified status. -/
def recordNewsPredictionVerified : HazardReport :=
  { baseReport with source := some Source.news, isPrediction := true }

/-- Fixture: an active agency record located far outside the Mumbai region
bounding box (lat 25, lng 90). -/
def recordOutsideRegion : HazardReport :=
  { baseReport with lat := 25, lng := 90 }

/-- Compositing inputs holding a single report, heatmap on, all kinds
visible, reference time 0. -/
def singleReportInputs (r : HazardReport) : RenderInputs :=
  { showHeatmap := true, selectedTimestamp := 0,
    visibleTypes := initialVisibleTypes, reports := [r] }

/-- Compositing inputs in which the cyclone kind has been toggled off. -/
def hiddenCycloneInputs : RenderInputs :=
  { showHeatmap := true, selectedTimestamp := 0,
    visibleTypes := handleToggleType initialVisibleTypes HazardType.cyclone,
    reports := [baseReport] }

/-- Fixture: timeline state playing at "now". -/
def timelineStatePlayingNow : TimelineState :=
  { selectedTimestamp := timelineNow, isPlaying := true, playbackSpeed := 1 }

/-- Fixture: timeline state playing exactly at the range end. -/
def timelineStateNearEnd : TimelineState :=
  { selectedTimestamp := timelineEnd, isPlaying := true, playbackSpeed := 1 }

/-- Claim C1, counterexample: the record of Scenario B (occurrence 0,
duration 48 h) observed at the exact expiry instant 172800000 ms. The code
reports it active although the reference time is not strictly before
occurrence + duration, refuting the claimed exclusive expiry bound. -/
theorem C1_counterexample_expiry_instant_active :
    isActive 172800000 recordAtExpiryBoundary = true ∧
      ¬((172800000 : ℤ) < recordAtExpiryBoundary.timestamp +
          orFallback recordAtExpiryBoundary.durationHours 48 * 60 * 60 * 1000) :=
  ⟨by decide, by decide⟩

/-- Claim C1 (amended): a record is active iff its occurrence timestamp is
at most the reference time AND the reference time is at most occurrence +
duration - the expiry instant itself is still active (inclusive end, not the
claimed exclusive end); strictly after the expiry instant the record is
inactive. -/
theorem C1_activity_window_inclusive_end :
    ∀ (t : ℤ) (r : HazardReport),
      isActive t r = true ↔
        (r.timestamp ≤ t ∧
          t ≤ r.timestamp + orFallback r.durationHours 48 * 60 * 60 * 1000) := by
  intro t r
  simp [isActive]

/-- Claim C2, counterexample: an agency-sourced non-prediction record with
verification_status = false_alert is placed in the agency marker layer by
the compositing pass - the agency bucket filter never checks
verification status. -/
theorem C2_counterexample_false_alert_agency_marker :
    recordFalseAlertAgency.verificationStatus = some VerificationStatus.false_alert ∧
      recordFalseAlertAgency ∈ (compose (singleReportInputs recordFalseAlertAgency)).agencyMarkers :=
  ⟨rfl, by decide⟩

/-- Claim C2 (amended): a false_alert record is excluded from the verified
and ambiguous heat layers (their predicates demand verified resp. ambiguous
status), but not from the marker layers: the agency and prediction marker
predicates ignore verification status. -/
theorem C2_false_alert_excluded_only_from_heat_layers :
    ∀ (inp : RenderInputs) (r : HazardReport),
      r.verificationStatus = some VerificationStatus.false_alert →
        r ∉ (compose inp).verifiedHeat ∧ r ∉ (compose inp).ambiguousHeat := by
  intro inp r h
  cases hs : inp.showHeatmap with
  | false => simp [compose, hs, emptyLayers]
  | true =>
    constructor
    · intro hm
      simp only [compose, hs, if_true, buildLayers, List.mem_filter] at hm
      have hv := hm.2
      simp [inVerifiedSecondary, h] at hv
    · intro hm
      simp only [compose, hs, if_true, buildLayers, List.mem_filter] at hm
      have hv := hm.2
      simp [inAmbiguousSecondary, h] at hv

/-- Claim C2 witness: the amended exclusion applied to the concrete
false_alert agency record. -/
theorem C2_false_alert_witness :
    recordFalseAlertAgency ∉ (compose (singleReportInputs recordFalseAlertAgency)).verifiedHeat ∧
      recordFalseAlertAgency ∉ (compose (singleReportInputs recordFalseAlertAgency)).ambiguousHeat :=
  C2_false_alert_excluded_only_from_heat_layers (singleReportInputs recordFalseAlertAgency)
    recordFalseAlertAgency rfl

/-- Claim C3, counterexample: a news-sourced prediction with verified status
is placed in BOTH the prediction marker layer and the verified heat layer by
the same compositing pass, so bucket membership is not a partition. -/
theorem C3_counterexample_two_buckets :
    recordNewsPredictionVerified ∈
        (compose (singleReportInputs recordNewsPredictionVerified)).predictionMarkers ∧
      recordNewsPredictionVerified ∈
        (compose (singleReportInputs recordNewsPredictionVerified)).verifiedHeat :=
  ⟨by decide, by decide⟩

/-- Claim C3 (amended): the four bucket predicates as implemented. The
agency bucket is disjoint from every other bucket (is_prediction precedence
holds against agency only, and the secondary buckets demand a news/social
source), the two secondary buckets are mutually disjoint, but the
prediction bucket overlaps a secondary bucket exactly on news/social-sourced
predictions carrying that bucket's verification status. -/
theorem C3_bucket_classification :
    ∀ (r : HazardReport),
      (¬(inAgencyBucket r = true ∧ inPredictionBucket r = true)) ∧
      (¬(inAgencyBucket r = true ∧ inVerifiedSecondary r = true)) ∧
      (¬(inAgencyBucket r = true ∧ inAmbiguousSecondary r = true)) ∧
      (¬(inVerifiedSecondary r = true ∧ inAmbiguousSecondary r = true)) ∧
      ((inPredictionBucket r = true ∧ inVerifiedSecondary r = true) ↔
        (r.isPrediction = true ∧
          (r.source = some Source.news ∨ r.source = some Source.social) ∧
          r.verificationStatus = some VerificationStatus.verified)) ∧
      ((inPredictionBucket r = true ∧ inAmbiguousSecondary r = true) ↔
        (r.isPrediction = true ∧
          (r.source = some Source.news ∨ r.source = some Source.social) ∧
          r.verificationStatus = some VerificationStatus.ambiguous)) := by
  intro r
  obtain ⟨_, _, _, _, _, _, _, _, _, _, _, _, isPred, _, src, vst, _⟩ := r
  cases isPred <;> rcases src with _ | s <;> (try cases s) <;>
    rcases vst with _ | v <;> (try cases v) <;>
    simp [inAgencyBucket, inPredictionBucket, inVerifiedSecondary, inAmbiguousSecondary]

/-- Claim C3 witness: the disjointness and overlap facts applied to the
concrete news-sourced verified prediction. -/
theorem C3_bucket_classification_witness :
    ¬(inAgencyBucket recordNewsPredictionVerified = true ∧
        inPredictionBucket recordNewsPredictionVerified = true) :=
  (C3_bucket_classification recordNewsPredictionVerified).1

/-- Claim C4, counterexample: a rip_current record with absent
durationHours. The per-kind default is 6 h, yet at 24 h after occurrence the
code still reports the record active, because the filter substitutes the
flat 48 h fallback instead of the per-kind default. -/
theorem C4_counterexample_flat_fallback :
    recordMissingDuration.durationHours = none ∧
      HAZARD_DURATION_HOURS HazardType.rip_current = 6 ∧
      isActive 86400000 recordMissingDuration = true ∧
      ¬((86400000 : ℤ) ≤ recordMissingDuration.timestamp + 6 * 60 * 60 * 1000) :=
  ⟨rfl, rfl, by decide, by decide⟩

/-- Claim C4 (amended): when durationHours is absent the activity test uses
the flat 48-hour fallback for every hazard kind; the per-kind
HAZARD_DURATION_HOURS table (rip_current 6, high_tide 12, tsunami 24,
storm_surge 48, coastal_flood 72, cyclone 120, erosion 336) is applied only
when the seed records are generated, and no failure path exists. -/
theorem C4_missing_duration_flat_fallback :
    (∀ (t : ℤ) (r : HazardReport), r.durationHours = none →
      (isActive t r = true ↔
        (r.timestamp ≤ t ∧ t ≤ r.timestamp + 48 * 60 * 60 * 1000))) ∧
    HAZARD_DURATION_HOURS HazardType.rip_current = 6 ∧
    HAZARD_DURATION_HOURS HazardType.high_tide = 12 ∧
    HAZARD_DURATION_HOURS HazardType.tsunami = 24 ∧
    HAZARD_DURATION_HOURS HazardType.storm_surge = 48 ∧
    HAZARD_DURATION_HOURS HazardType.coastal_flood = 72 ∧
    HAZARD_DURATION_HOURS HazardType.cyclone = 120 ∧
    HAZARD_DURATION_HOURS HazardType.erosion = 336 := by
  refine ⟨?_, rfl, rfl, rfl, rfl, rfl, rfl, rfl⟩
  intro t r h
  simp [isActive, h, orFallback]

/-- Claim C4 witness: the flat-fallback characterization applied to the
concrete record with absent duration. -/
theorem C4_missing_duration_witness :
    isActive 86400000 recordMissingDuration = true ↔
      (recordMissingDuration.timestamp ≤ 86400000 ∧
        (86400000 : ℤ) ≤ recordMissingDuration.timestamp + 48 * 60 * 60 * 1000) :=
  C4_missing_duration_flat_fallback.1 86400000 recordMissingDuration rfl

/-- Claim C5, counterexample: a record far outside the Mumbai bounding box
even after the 0.5-degree expansion still appears in the composed agency
marker layer - the compositing pass applies no region scope filter. -/
theorem C5_counterexample_out_of_region_rendered :
    isPointInBbox recordOutsideRegion.lat recordOutsideRegion.lng mumbaiBbox 0.5 = false ∧
      recordOutsideRegion ∈ (compose (singleReportInputs recordOutsideRegion)).agencyMarkers := by
  constructor
  · simp [isPointInBbox, mumbaiBbox, recordOutsideRegion, baseReport]
    norm_num
  · decide

/-- Claim C5 (amended): the helper isPointInBbox accepts exactly the points
of the bounding box expanded by the 0.5-degree margin in each direction, but
layer membership in the compositing pass is characterized by heatmap toggle,
time filter and bucket alone - no spatial condition and no region input
restricts it. -/
theorem C5_scope_helper_and_unscoped_compose :
    ∀ (lat lng : ℚ) (b : Bbox),
      (isPointInBbox lat lng b 0.5 = true ↔
        (b.south - 0.5 ≤ lat ∧ lat ≤ b.north + 0.5 ∧
          b.west - 0.5 ≤ lng ∧ lng ≤ b.east + 0.5)) ∧
      (∀ (inp : RenderInputs) (r : HazardReport),
        r ∈ (compose inp).agencyMarkers ↔
          (inp.showHeatmap = true ∧ r ∈ inp.reports ∧
            passesFilter inp.visibleTypes inp.selectedTimestamp r = true ∧
            inAgencyBucket r = true)) := by
  intro lat lng b
  constructor
  · simp only [isPointInBbox, Bool.and_eq_true, decide_eq_true_eq, ge_iff_le]
    tauto
  · intro inp r
    cases hs : inp.showHeatmap with
    | false => simp [compose, hs, emptyLayers]
    | true =>
      simp [compose, hs, buildLayers, List.mem_filter, and_assoc]
      tauto

/-- Claim C6: while playing, one tick advances the selected timestamp by
exactly one simulated hour; when the advanced value would pass the range
end it is clamped to exactly the end and playback stops; in either case the
stored timestamp never exceeds the range end. -/
theorem C6_playback_tick_clamps_and_pauses :
    ∀ (s : TimelineState), s.isPlaying = true →
      ((s.selectedTimestamp + 3600000 > timelineEnd →
          (playbackTick s).selectedTimestamp = timelineEnd ∧
            (playbackTick s).isPlaying = false) ∧
        (s.selectedTimestamp + 3600000 ≤ timelineEnd →
          (playbackTick s).selectedTimestamp = s.selectedTimestamp + 3600000 ∧
            (playbackTick s).isPlaying = true) ∧
        (playbackTick s).selectedTimestamp ≤ timelineEnd) := by
  intro s h
  have hpt : playbackTick s =
      if s.selectedTimestamp + 3600000 > timelineEnd then
        { s with selectedTimestamp := timelineEnd, isPlaying := false }
      else { s with selectedTimestamp := s.selectedTimestamp + 3600000 } := by
    simp [playbackTick, h]
  rw [hpt]
  split_ifs with hgt
  · exact ⟨fun _ => ⟨rfl, rfl⟩, fun hle => absurd hgt (not_lt.mpr hle), le_refl _⟩
  · exact ⟨fun hc => absurd hc hgt, fun _ => ⟨rfl, h⟩, not_lt.mp hgt⟩

/-- Claim C6 witness: a tick fired while playing exactly at the range end
clamps to the end and pauses. -/
theorem C6_playback_tick_witness :
    (playbackTick timelineStateNearEnd).selectedTimestamp = timelineEnd ∧
      (playbackTick timelineStateNearEnd).isPlaying = false :=
  (C6_playback_tick_clamps_and_pauses timelineStateNearEnd rfl).1 (by decide)

/-- Claim C7, counterexample: a direct set through the store to a timestamp
100 days past the future horizon is stored unclamped (the result differs
from the horizon) and the playing state is untouched, refuting both the
claimed clamping and the claimed transition to Paused. -/
theorem C7_counterexample_unclamped_direct_set :
    (setSelectedTimestamp timelineStatePlayingNow
          (timelineEnd + 8640000000)).selectedTimestamp ≠ timelineEnd ∧
      (setSelectedTimestamp timelineStatePlayingNow
          (timelineEnd + 8640000000)).isPlaying = true :=
  ⟨by decide, rfl⟩

/-- Claim C7 (amended): only the drag handler clamps - its percentage is
limited to [0, 100], so every drag-scrub target lies within the configured
range; the store setter stores any timestamp verbatim, in or out of range,
and no scrub path changes the playing state. -/
theorem C7_drag_clamps_setter_does_not :
    ∀ (x width : ℚ),
      ((timelineStart : ℚ) ≤ dragScrubTarget x width ∧
        dragScrubTarget x width ≤ (timelineEnd : ℚ)) ∧
      (∀ (s : TimelineState) (t : ℤ),
        (setSelectedTimestamp s t).selectedTimestamp = t ∧
          (setSelectedTimestamp s t).isPlaying = s.isPlaying) := by
  intro x width
  have hp0 : 0 ≤ dragScrubPercentage x width := le_max_left 0 _
  have hp100 : dragScrubPercentage x width ≤ 100 :=
    max_le (by norm_num) (min_le_left _ _)
  have hD : (timelineEnd : ℚ) - (timelineStart : ℚ) = 864000000 := by
    norm_num [timelineStart, timelineEnd, timelineNow]
  refine ⟨⟨?_, ?_⟩, fun s t => ⟨rfl, rfl⟩⟩
  · have h1 : 0 ≤ ((timelineEnd : ℚ) - (timelineStart : ℚ)) *
        dragScrubPercentage x width / 100 :=
      div_nonneg (mul_nonneg (by rw [hD]; norm_num) hp0) (by norm_num)
    unfold dragScrubTarget
    linarith
  · have h2 : ((timelineEnd : ℚ) - (timelineStart : ℚ)) *
        dragScrubPercentage x width / 100 ≤ (timelineEnd : ℚ) - (timelineStart : ℚ) := by
      rw [hD, div_le_iff₀ (by norm_num : (0 : ℚ) < 100)]
      linarith
    unfold dragScrubTarget
    linarith

/-- Claim C8: the fixed severity-to-visual-weight mappings: verified heat
intensity 1.0 / 0.8 / 0.55 / 0.35, ambiguous heat intensity 0.5 / 0.35 /
0.2 / 0.1, marker radius 10 / 8 / 6 / 5 identical for agency and prediction
markers, and all four mappings strictly increase with severity. -/
theorem C8_severity_visual_weight_mapping :
    (verifiedHeatIntensity Severity.critical = 1 ∧
      verifiedHeatIntensity Severity.high = 0.8 ∧
      (0.5 ≤ verifiedHeatIntensity Severity.medium ∧
        verifiedHeatIntensity Severity.medium ≤ 0.55) ∧
      (0.3 ≤ verifiedHeatIntensity Severity.low ∧
        verifiedHeatIntensity Severity.low ≤ 0.35)) ∧
    (ambiguousHeatIntensity Severity.critical = 0.5 ∧
      ambiguousHeatIntensity Severity.high = 0.35 ∧
      ambiguousHeatIntensity Severity.medium = 0.2 ∧
      ambiguousHeatIntensity Severity.low = 0.1) ∧
    (agencyMarkerRadius Severity.critical = 10 ∧
      agencyMarkerRadius Severity.high = 8 ∧
      agencyMarkerRadius Severity.medium = 6 ∧
      agencyMarkerRadius Severity.low = 5) ∧
    (∀ s : Severity, predictionMarkerRadius s = agencyMarkerRadius s) ∧
    (∀ a b : Severity, sevRank a < sevRank b →
      verifiedHeatIntensity a < verifiedHeatIntensity b ∧
        ambiguousHeatIntensity a < ambiguousHeatIntensity b ∧
        agencyMarkerRadius a < agencyMarkerRadius b ∧
        predictionMarkerRadius a < predictionMarkerRadius b) := by
  refine ⟨?_, ?_, ?_, ?_, ?_⟩
  · norm_num [verifiedHeatIntensity]
  · norm_num [ambiguousHeatIntensity]
  · norm_num [agencyMarkerRadius]
  · intro s
    cases s <;> rfl
  · intro a b h
    cases a <;> cases b <;>
      norm_num [sevRank, verifiedHeatIntensity, ambiguousHeatIntensity,
        agencyMarkerRadius, predictionMarkerRadius] at h ⊢

/-- Claim C8 witness: strict monotonicity applied at medium versus high. -/
theorem C8_severity_mapping_witness :
    verifiedHeatIntensity Severity.medium < verifiedHeatIntensity Severity.high ∧
      ambiguousHeatIntensity Severity.medium < ambiguousHeatIntensity Severity.high ∧
      agencyMarkerRadius Severity.medium < agencyMarkerRadius Severity.high ∧
      predictionMarkerRadius Severity.medium < predictionMarkerRadius Severity.high :=
  C8_severity_visual_weight_mapping.2.2.2.2 Severity.medium Severity.high (by decide)

/-- Claim C9: a compositing pass is stateless and deterministic - its
result is independent of whatever layers were previously drawn (they are
discarded first) and equals the pure function compose of the current
inputs, so two passes over identical inputs produce identical layer sets. -/
theorem C9_compositing_stateless_deterministic :
    ∀ (prev₁ prev₂ : Layers) (inp : RenderInputs),
      renderPass prev₁ inp = renderPass prev₂ inp ∧
        renderPass prev₁ inp = compose inp := by
  intro p1 p2 inp
  cases hs : inp.showHeatmap <;> simp [renderPass, clearLayers, compose, hs]

/-- Claim C10: the visible-kind set starts with all seven hazard kinds; a
record whose kind is not in the set appears in no layer of the compositing
pass, whatever its source or verification status; the toggle handler
removes a present kind and restores an absent one. -/
theorem C10_hidden_kind_excluded :
    (∀ k : HazardType, k ∈ initialVisibleTypes) ∧
    (∀ (inp : RenderInputs) (r : HazardReport), r.type ∉ inp.visibleTypes →
      r ∉ (compose inp).verifiedHeat ∧ r ∉ (compose inp).ambiguousHeat ∧
        r ∉ (compose inp).agencyMarkers ∧ r ∉ (compose inp).predictionMarkers) ∧
    (∀ (visible : List HazardType) (k : HazardType),
      (k ∈ visible → k ∉ handleToggleType visible k) ∧
      (k ∉ visible → k ∈ handleToggleType visible k)) := by
  refine ⟨?_, ?_, ?_⟩
  · intro k
    cases k <;> decide
  · intro inp r h
    cases hs : inp.showHeatmap with
    | false => simp [compose, hs, emptyLayers]
    | true =>
      refine ⟨?_, ?_, ?_, ?_⟩ <;>
        simp [compose, hs, buildLayers, List.mem_filter, passesFilter, h]
  · intro visible k
    constructor
    · intro h
      simp [handleToggleType, h]
    · intro h
      simp [handleToggleType, h]

/-- Claim C10 witness: with cyclone toggled off, the active verified agency
cyclone record is excluded from every layer. -/
theorem C10_hidden_kind_witness :
    baseReport ∉ (compose hiddenCycloneInputs).verifiedHeat ∧
      baseReport ∉ (compose hiddenCycloneInputs).ambiguousHeat ∧
      baseReport ∉ (compose hiddenCycloneInputs).agencyMarkers ∧
      baseReport ∉ (compose hiddenCycloneInputs).predictionMarkers :=
  C10_hidden_kind_excluded.2.1 hiddenCycloneInputs baseReport (by decide)

end SeaTrace
